import Mathlib

/-!
Verification of the OpsPilot backend control plane (agent-fleet monitoring).

This file shallowly embeds the parts of the Go source that the verified
properties are about: the RPC dispatcher deadline computation, the
enrollment timestamp-freshness check, the adaptive pull state machine of
the two stream consumers, the agents/credentials/incidents/inventory/
connections/conflicts storage operations (the SQL statements translated
into pure state-passing functions on a record of tables), the enrollment
handler, the credential create/rotate handlers, and the agent-connect
conflict service.  External collaborators (the NATS bus, msgpack decoding,
Ed25519/NKey signature verification, bcrypt token hashing, JWT issuance,
sha256) are modelled as oracles: decode results, signature validity, token
validation outcomes and hash values are taken as inputs rather than
recomputed.
-/

namespace OpsPilot

/-! ### RPC dispatcher (package rpc, ExecAction)

The Go code computes the request deadline as

  timeout := time.Duration(timeoutMS)*time.Millisecond + 5*time.Second
  if timeoutMS <= 0 { timeout = 15 * time.Second }
  if timeout > 125*time.Second { timeout = 125 * time.Second }

We work in integer milliseconds. -/

/-- Overall wait deadline used by ExecAction for the bus request, in
milliseconds, translated statement by statement from the Go code. -/
def execActionDeadlineMs (timeoutMS : Int) : Int :=
  let t := timeoutMS + 5000
  let t := if timeoutMS ≤ 0 then 15000 else t
  if t > 125000 then 125000 else t

/-- Deadline as the specification sentence reads it: timeoutMs + 5 s with a
floor of 15 s and a ceiling of 125 s, i.e. clamped into the closed interval
from 15 000 ms to 125 000 ms. -/
def specClampedDeadlineMs (timeoutMS : Int) : Int :=
  max 15000 (min (timeoutMS + 5000) 125000)

/-! ### Enrollment timestamp freshness (package natsauth, isTimestampFresh)

  stamp := time.UnixMilli(timestampMs)
  return time.Since(stamp) <= maxSkew && time.Until(stamp) <= maxSkew

time.Since(stamp) is now - stamp and time.Until(stamp) is stamp - now;
we model both in milliseconds with the current instant explicit. -/

/-- Freshness check of the enrollment handler, in milliseconds. -/
def isTimestampFresh (nowMs timestampMs maxSkewMs : Int) : Bool :=
  decide (nowMs - timestampMs ≤ maxSkewMs) && decide (timestampMs - nowMs ≤ maxSkewMs)

/-- The skew bound the enrollment handler passes: 5 minutes in milliseconds. -/
def fiveMinutesMs : Int := 5 * 60 * 1000

/-! ### Adaptive pull state machine (package ingest, consumeLoop)

Both consumers run the same loop body over the mutable variables
fetchSize, fullCount, emptyCount; they differ only in minFetch/maxFetch.
A fetch either errors (including timeout), or returns n messages. -/

/-- Loop-local state of a consumer: current fetch size and the two
consecutive-outcome counters. -/
structure FetchState where
  fetchSize : Nat
  fullCount : Nat
  emptyCount : Nat
  deriving Repr, DecidableEq

/-- Outcome of one sub.Fetch call as the loop observes it. -/
inductive FetchResult where
  | fetchError
  | fetched (n : Nat)
  deriving Repr, DecidableEq

/-- The empty/error branch: bump emptyCount, reset fullCount, and after 3
consecutive empties halve fetchSize clamped to minFetch. -/
def shrinkStep (minFetch : Nat) (s : FetchState) : FetchState :=
  let emptyCount := s.emptyCount + 1
  if 3 ≤ emptyCount ∧ minFetch < s.fetchSize then
    let f := s.fetchSize / 2
    let f := if f < minFetch then minFetch else f
    { fetchSize := f, fullCount := 0, emptyCount := 0 }
  else
    { s with fullCount := 0, emptyCount := emptyCount }

/-- The full-batch branch: bump fullCount, reset emptyCount, and after 3
consecutive full batches double fetchSize clamped to maxFetch. -/
def growStep (maxFetch : Nat) (s : FetchState) : FetchState :=
  let fullCount := s.fullCount + 1
  if 3 ≤ fullCount ∧ s.fetchSize < maxFetch then
    let f := s.fetchSize * 2
    let f := if maxFetch < f then maxFetch else f
    { fetchSize := f, fullCount := 0, emptyCount := 0 }
  else
    { s with fullCount := fullCount, emptyCount := 0 }

/-- One iteration of the adaptive part of consumeLoop, branching exactly as
the Go code does on the fetch outcome. -/
def fetchStep (minFetch maxFetch : Nat) (s : FetchState) (r : FetchResult) : FetchState :=
  match r with
  | .fetchError => shrinkStep minFetch s
  | .fetched n =>
      if n = 0 then shrinkStep minFetch s
      else if n = s.fetchSize then growStep maxFetch s
      else { s with fullCount := 0, emptyCount := 0 }

/-- Initial loop state: fetchSize 64, both counters zero. -/
def initialFetchState : FetchState :=
  { fetchSize := 64, fullCount := 0, emptyCount := 0 }

/-- State after the loop has observed a sequence of fetch outcomes. -/
def runConsumeLoop (minFetch maxFetch : Nat) (rs : List FetchResult) : FetchState :=
  rs.foldl (fetchStep minFetch maxFetch) initialFetchState

theorem shrinkStep_bounds (minFetch maxFetch : Nat) (s : FetchState)
    (h1 : minFetch ≤ s.fetchSize) (h2 : s.fetchSize ≤ maxFetch) :
    minFetch ≤ (shrinkStep minFetch s).fetchSize ∧ (shrinkStep minFetch s).fetchSize ≤ maxFetch := by
  simp only [shrinkStep]
  split_ifs <;> simp only [] <;> constructor <;> omega

theorem growStep_bounds (minFetch maxFetch : Nat) (s : FetchState)
    (h1 : minFetch ≤ s.fetchSize) (h2 : s.fetchSize ≤ maxFetch) :
    minFetch ≤ (growStep maxFetch s).fetchSize ∧ (growStep maxFetch s).fetchSize ≤ maxFetch := by
  simp only [growStep]
  split_ifs <;> simp only [] <;> constructor <;> omega

theorem fetchStep_bounds (minFetch maxFetch : Nat) (s : FetchState) (r : FetchResult)
    (h1 : minFetch ≤ s.fetchSize) (h2 : s.fetchSize ≤ maxFetch) :
    minFetch ≤ (fetchStep minFetch maxFetch s r).fetchSize ∧
      (fetchStep minFetch maxFetch s r).fetchSize ≤ maxFetch := by
  cases r with
  | fetchError => exact shrinkStep_bounds minFetch maxFetch s h1 h2
  | fetched n =>
      simp only [fetchStep]
      split_ifs
      · exact shrinkStep_bounds minFetch maxFetch s h1 h2
      · exact growStep_bounds minFetch maxFetch s h1 h2
      · exact ⟨h1, h2⟩

theorem foldl_fetchStep_bounds (minFetch maxFetch : Nat) (rs : List FetchResult)
    (s : FetchState) (h1 : minFetch ≤ s.fetchSize) (h2 : s.fetchSize ≤ maxFetch) :
    minFetch ≤ (rs.foldl (fetchStep minFetch maxFetch) s).fetchSize ∧
      (rs.foldl (fetchStep minFetch maxFetch) s).fetchSize ≤ maxFetch := by
  induction rs generalizing s with
  | nil => exact ⟨h1, h2⟩
  | cons r rs ih =>
      have h := fetchStep_bounds minFetch maxFetch s r h1 h2
      exact ih (fetchStep minFetch maxFetch s r) h.1 h.2

/-- C5: from the initial fetchSize 64, across every sequence of fetch
outcomes the adaptive pull state machine keeps fetchSize within 8..512 for
the events consumer (minFetch 8, maxFetch 512) and within 32..256 for the
inventory consumer (minFetch 32, maxFetch 256). -/
theorem adaptive_fetch_size_bounded (rs : List FetchResult) :
    (8 ≤ (runConsumeLoop 8 512 rs).fetchSize ∧ (runConsumeLoop 8 512 rs).fetchSize ≤ 512)
    ∧ (32 ≤ (runConsumeLoop 32 256 rs).fetchSize ∧ (runConsumeLoop 32 256 rs).fetchSize ≤ 256) :=
  ⟨foldl_fetchStep_bounds 8 512 rs initialFetchState (by decide) (by decide),
   foldl_fetchStep_bounds 32 256 rs initialFetchState (by decide) (by decide)⟩

/-- C1 counterexample: at a requested timeout of 1000 ms the code waits
6 s, while the claimed clamp (floor 15 s) would wait 15 s; in particular
the code's deadline is strictly below the claimed floor. -/
theorem execActionDeadline_no_floor_counterexample :
    execActionDeadlineMs 1000 = 6000 ∧ specClampedDeadlineMs 1000 = 15000
    ∧ execActionDeadlineMs 1000 < 15000 := by
  refine ⟨by decide, ?_, by decide⟩
  simp only [specClampedDeadlineMs]
  decide

/-- C1 (amended): the deadline is timeoutMs + 5 s capped at 125 s when
timeoutMs is positive, and exactly 15 s when timeoutMs is non-positive;
the 15 s value is a default for non-positive requests, not a floor. -/
theorem execActionDeadline_characterization (timeoutMS : Int) :
    (0 < timeoutMS → execActionDeadlineMs timeoutMS = min (timeoutMS + 5000) 125000)
    ∧ (timeoutMS ≤ 0 → execActionDeadlineMs timeoutMS = 15000)
    ∧ execActionDeadlineMs timeoutMS ≤ 125000 := by
  simp only [execActionDeadlineMs]
  refine ⟨fun h => ?_, fun h => ?_, ?_⟩ <;> split_ifs <;> omega

/-- Closed instance of the amended C1 theorem at timeoutMs = 1000. -/
theorem execActionDeadline_characterization_witness :
    execActionDeadlineMs 1000 = min (1000 + 5000) 125000 :=
  (execActionDeadline_characterization 1000).1 (by decide)

/-- The freshness check fails exactly when the absolute distance between
now and the timestamp exceeds the skew bound. -/
theorem isTimestampFresh_false_iff (nowMs ts maxSkew : Int) :
    isTimestampFresh nowMs ts maxSkew = false ↔ maxSkew < |nowMs - ts| := by
  simp only [isTimestampFresh, Bool.and_eq_false_iff,
    decide_eq_false_iff_not, not_le, lt_abs]
  omega

/-! ### Storage model

The SQL tables the claims touch, translated row by row from init.sql, and
the storage operations translated statement by statement from the storage
package.  Nullable columns are Option values; timestamps are integer
milliseconds; JSONB documents that no claim inspects are kept as tagged
values.  Rows are kept in insertion order, which also reflects the
ascending DEFAULT now() timestamp columns. -/

/-- nullIfEmpty from the storage package: empty string binds as SQL NULL. -/
def nullIfEmpty (s : String) : Option String :=
  if s = "" then none else some s

/-- SQL COALESCE on two nullable values. -/
def coalesce {α : Type} : Option α → Option α → Option α
  | some a, _ => some a
  | none, b => b

/-- SQL NULLIF(x, '') on a nullable text value. -/
def nullIfEmptyText : Option String → Option String
  | none => none
  | some s => if s = "" then none else some s

/-- Content of the agents.meta JSONB column, tagged: either the empty
object (the Go side replaces a nil byte slice by "\x7b\x7d") or the
os/arch/agent_version document built by storage.EnrollAgent. -/
inductive MetaVal where
  | emptyObj
  | osArchVer (os arch agentVersion : String)
  deriving Repr, DecidableEq

/-- One row of the agents table. -/
structure AgentRow where
  id : String
  agentId : String
  orgId : Option String
  name : String
  hostname : String
  status : String
  lastSeenAt : Option Int
  tags : List String
  hardwareFingerprint : Option String
  enrolledVia : Option String
  enrolledAt : Option Int
  enrolledIP : Option String
  meta : Option MetaVal
  deriving Repr, DecidableEq

/-- models.Agent as the Go code constructs it (pointer fields are Option,
plain string fields are String, a nil Tags slice is none, nil Meta none). -/
structure GoAgent where
  id : String
  agentId : String
  orgId : String
  name : String
  hostname : String
  status : String
  tags : Option (List String)
  hardwareFingerprint : String
  enrolledVia : Option String
  enrolledAt : Option Int
  enrolledIP : Option String
  lastSeenAt : Option Int
  meta : Option MetaVal
  deriving Repr, DecidableEq

/-- The thirteen bind parameters of the agent upsert, exactly as
storage.CreateAgent and storage.EnrollAgent bind them (nullIfEmpty applied
on the Go side to org_id, hardware_fingerprint, enrolled_via, enrolled_ip;
a nil Tags slice binds NULL; nil Meta binds the empty object). -/
structure AgentUpsertParams where
  id : String
  agentId : String
  orgId : Option String
  name : String
  hostname : String
  status : String
  lastSeenAt : Option Int
  tags : Option (List String)
  hardwareFingerprint : Option String
  enrolledVia : Option String
  enrolledAt : Option Int
  enrolledIP : Option String
  meta : MetaVal
  deriving Repr, DecidableEq

/-- Parameter binding performed by storage.CreateAgent (and identically by
storage.EnrollAgent) before executing the upsert. -/
def createAgentParams (a : GoAgent) : AgentUpsertParams :=
  { id := a.id
    agentId := a.agentId
    orgId := nullIfEmpty a.orgId
    name := a.name
    hostname := a.hostname
    status := a.status
    lastSeenAt := a.lastSeenAt
    tags := a.tags
    hardwareFingerprint := nullIfEmpty a.hardwareFingerprint
    enrolledVia := match a.enrolledVia with
      | none => none
      | some v => nullIfEmpty v
    enrolledAt := a.enrolledAt
    enrolledIP := match a.enrolledIP with
      | none => none
      | some v => nullIfEmpty v
    meta := match a.meta with
      | none => MetaVal.emptyObj
      | some m => m }

/-- The row proposed for insertion by the VALUES clause of the upsert.  Its
tags column is COALESCE of the tags parameter with the empty array, so it
is never NULL; by PostgreSQL semantics this evaluated row is also what the
EXCLUDED pseudo-table exposes to the ON CONFLICT update. -/
def proposedAgentRow (p : AgentUpsertParams) : AgentRow :=
  { id := p.id
    agentId := p.agentId
    orgId := p.orgId
    name := p.name
    hostname := p.hostname
    status := p.status
    lastSeenAt := p.lastSeenAt
    tags := p.tags.getD []
    hardwareFingerprint := p.hardwareFingerprint
    enrolledVia := p.enrolledVia
    enrolledAt := p.enrolledAt
    enrolledIP := p.enrolledIP
    meta := some p.meta }

/-- The DO UPDATE SET list of the agent upsert.  excluded is the proposed
row; the primary key column id is not in the SET list and keeps its old
value, as does agent_id (the conflict target).  The name column in every
reachable row is non-NULL, so COALESCE(NULLIF(EXCLUDED.name, ''),
agents.name) is rendered directly on strings. -/
def mergeAgentRow (excluded old : AgentRow) : AgentRow :=
  { id := old.id
    agentId := old.agentId
    orgId := coalesce excluded.orgId old.orgId
    name := if excluded.name = "" then old.name else excluded.name
    hostname := excluded.hostname
    status := excluded.status
    lastSeenAt := excluded.lastSeenAt
    tags := excluded.tags
    hardwareFingerprint := coalesce (nullIfEmptyText excluded.hardwareFingerprint) old.hardwareFingerprint
    enrolledVia := coalesce excluded.enrolledVia old.enrolledVia
    enrolledAt := coalesce excluded.enrolledAt old.enrolledAt
    enrolledIP := coalesce excluded.enrolledIP old.enrolledIP
    meta := excluded.meta }

/-- INSERT ... ON CONFLICT (agent_id) DO UPDATE on the agents table: the
unique agent_id column decides between merge-in-place and append. -/
def upsertAgentRows : List AgentRow → AgentRow → List AgentRow
  | [], proposed => [proposed]
  | r :: rs, proposed =>
      if r.agentId == proposed.agentId then mergeAgentRow proposed r :: rs
      else r :: upsertAgentRows rs proposed

/-- One row of the agent_credentials table.  revoked models
revoked_at IS NOT NULL. -/
structure CredentialRow where
  agentId : String
  publicKey : String
  isPinned : Bool
  fingerprintAtRegistration : Option String
  registeredFromIP : Option String
  registeredHostname : Option String
  jwtExpiresAt : Int
  revoked : Bool
  deriving Repr, DecidableEq

/-- Value of one entry of an event's details map: a string, or any
non-string msgpack value (whose content no code path inspects). -/
inductive DetailVal where
  | str (s : String)
  | nonString
  deriving Repr, DecidableEq

/-- One row of the incidents table; id stands in for the SERIAL column,
context keeps the marshalled details document. -/
structure IncidentRow where
  id : Nat
  agentId : String
  type : String
  source : String
  rawError : String
  context : List (String × DetailVal)
  aiAnalysis : String
  status : String
  deriving Repr, DecidableEq

/-- One row of the agents_inventory table; payload is the canonical JSON
serialization the consumer computed. -/
structure InventoryRow where
  agentId : String
  hash : String
  payload : String
  deriving Repr, DecidableEq

/-- One row of the agent_connections table.  disconnected models
disconnected_at IS NOT NULL; connection order in the list reflects the
ascending connected_at DEFAULT now() values. -/
structure ConnectionRow where
  id : String
  agentId : String
  natsClientId : Option String
  remoteIP : String
  hostname : Option String
  disconnected : Bool
  disconnectReason : Option String
  deriving Repr, DecidableEq

/-- One row of the agent_conflicts table (the columns the conflict service
writes; resolution data is not touched by the verified paths). -/
structure ConflictRow where
  id : String
  agentId : String
  existingIP : Option String
  newIP : Option String
  existingHostname : Option String
  newHostname : Option String
  resolution : String
  deriving Repr, DecidableEq

/-- The database state: the tables the verified operations read or write. -/
structure DB where
  agents : List AgentRow
  credentials : List CredentialRow
  incidents : List IncidentRow
  inventory : List InventoryRow
  connections : List ConnectionRow
  conflicts : List ConflictRow
  deriving Repr, DecidableEq

/-- The empty database. -/
def emptyDB : DB :=
  { agents := [], credentials := [], incidents := [], inventory := [],
    connections := [], conflicts := [] }

/-- SELECT ... FROM agents WHERE agent_id = $1 (agent_id is unique). -/
def getAgentByAgentID (db : DB) (agentId : String) : Option AgentRow :=
  db.agents.find? (fun r => r.agentId == agentId)

/-- storage.CreateAgent: bind the parameters and run the upsert. -/
def storageCreateAgent (db : DB) (a : GoAgent) : DB :=
  { db with agents := upsertAgentRows db.agents (proposedAgentRow (createAgentParams a)) }

/-- INSERT INTO incidents with RETURNING id; the FK on agent_id must hold.
The SERIAL id is stood in by the row count. -/
def createIncident (db : DB) (agentId type source rawError : String)
    (context : List (String × DetailVal)) (aiAnalysis status : String) : Option DB :=
  if (getAgentByAgentID db agentId).isSome then
    some { db with incidents := db.incidents ++
      [{ id := db.incidents.length, agentId := agentId, type := type, source := source,
         rawError := rawError, context := context, aiAnalysis := aiAnalysis, status := status }] }
  else none

/-- storage.InsertInventorySnapshot: INSERT ... ON CONFLICT (agent_id, hash)
DO NOTHING.  The arbiter unique index on (agent_id, hash) belongs to the
externally provided DDL (the specification's deduplication invariant). -/
def insertInventorySnapshot (db : DB) (agentId hash payload : String) : DB :=
  if db.inventory.any (fun r => r.agentId == agentId && r.hash == hash) then db
  else { db with inventory := db.inventory ++ [{ agentId := agentId, hash := hash, payload := payload }] }

/-- INSERT of one agent_credentials row.  Fails (none) when the FK to
agents(agent_id) or UNIQUE(agent_id, public_key) is violated.  The partial
unique index on pinned non-revoked rows is intentionally NOT modelled: the
theorems below show the application logic alone maintains that invariant. -/
def insertCredentialRow (db : DB) (c : CredentialRow) : Option DB :=
  if (getAgentByAgentID db c.agentId).isSome = false then none
  else if db.credentials.any (fun r => r.agentId == c.agentId && r.publicKey == c.publicKey) then none
  else some { db with credentials := db.credentials ++ [c] }

/-- Effect of the revoking UPDATE of RotateCredentials on one row: set
revoked_at when the row belongs to the agent and is not yet revoked. -/
def revokeCred (agentId : String) (c : CredentialRow) : CredentialRow :=
  if c.agentId == agentId && !c.revoked then { c with revoked := true } else c

/-- UPDATE agent_credentials SET revoked_at = now() WHERE agent_id = $1 AND
revoked_at IS NULL, as run by RotateCredentials. -/
def revokeAllActiveCredentials (db : DB) (agentId : String) : DB :=
  { db with credentials := db.credentials.map (revokeCred agentId) }

/-- The WHERE clause of GetPinnedPublicKey: a pinned, non-revoked
credential row of the agent. -/
def isPinnedActiveFor (agentId : String) (c : CredentialRow) : Bool :=
  c.agentId == agentId && c.isPinned && !c.revoked

/-- storage.GetPinnedPublicKey: the public key of a pinned non-revoked
credential of the agent (LIMIT 1), or the empty string when none exists. -/
def getPinnedPublicKey (db : DB) (agentId : String) : String :=
  match db.credentials.find? (isPinnedActiveFor agentId) with
  | none => ""
  | some c => c.publicKey

/-- Number of pinned non-revoked credential rows of an agent. -/
def pinnedActiveCount (db : DB) (agentId : String) : Nat :=
  (db.credentials.filter (isPinnedActiveFor agentId)).length

/-! ### Enrollment and credential handlers (package natsauth)

External collaborators are oracles: NKey signature verification is a
Boolean input, bootstrap-token validation (bcrypt compare plus the
revoked/expired/usage/CIDR checks over the bootstrap_tokens table, which no
claim touches) is an Except input, key generation and JWT issuance are
assumed to succeed with their outputs passed in, and generated UUIDs are
inputs. -/

/-- models.EnrollAgentRequest. -/
structure EnrollAgentRequest where
  agentId : String
  publicKey : String
  hostname : String
  hardwareFingerprint : String
  os : String
  arch : String
  agentVersion : String
  nonce : String
  timestamp : Int
  signature : String
  deriving Repr, DecidableEq

/-- Typed bootstrap-token validation errors of the storage package. -/
inductive TokenError where
  | notFound
  | revoked
  | expired
  | usageLimitReached
  | ipNotAllowed
  | other
  deriving Repr, DecidableEq

/-- The fields of a validated bootstrap token the enrollment path reads:
its id, its organization, and its tags (getBootstrapTokenTags). -/
structure BootstrapTokenInfo where
  id : String
  orgId : String
  tags : List String
  deriving Repr, DecidableEq

/-- HTTP responses of the natsauth handlers, by status class and message. -/
inductive HTTPResponse where
  | badRequest (msg : String)
  | unauthorized (msg : String)
  | forbidden (msg : String)
  | internalError (msg : String)
  | createdEnroll (agentId orgId : String) (tags : List String)
  | createdAgent (agentId : String)
  | okRotated
  deriving Repr, DecidableEq

/-- strings.TrimSpace: strip leading and trailing whitespace.  Implemented
structurally on the character list so that concrete instances evaluate. -/
def trimSpace (s : String) : String :=
  String.mk (((s.data.dropWhile Char.isWhitespace).reverse.dropWhile
    Char.isWhitespace).reverse)

/-- Bootstrap token resolution: the X-Bootstrap-Token header, or when that
is empty the token query parameter, both trimmed. -/
def resolveBootstrapToken (headerToken queryToken : String) : String :=
  let t := trimSpace headerToken
  if t = "" then trimSpace queryToken else t

/-- TrimSpace applied to the request fields, as the handler does first. -/
def trimEnrollRequest (req : EnrollAgentRequest) : EnrollAgentRequest :=
  { req with
    agentId := trimSpace req.agentId
    publicKey := trimSpace req.publicKey
    hostname := trimSpace req.hostname
    hardwareFingerprint := trimSpace req.hardwareFingerprint
    nonce := trimSpace req.nonce
    signature := trimSpace req.signature }

/-- The missing-required-fields guard of EnrollAgent. -/
def missingEnrollField (req : EnrollAgentRequest) : Bool :=
  req.agentId == "" || req.publicKey == "" || req.hostname == "" ||
  req.hardwareFingerprint == "" || req.nonce == "" || req.timestamp == 0 ||
  req.signature == ""

/-- The cross-organization guard: the agent exists with a non-empty
organization different from the token's (NULL org_id is read as ""). -/
def agentOrgConflict (db : DB) (agentId orgId : String) : Bool :=
  match getAgentByAgentID db agentId with
  | some ag => (ag.orgId.getD "") != "" && (ag.orgId.getD "") != orgId
  | none => false

/-- HTTP mapping of the bootstrap-token validation errors in EnrollAgent. -/
def tokenErrorResponse : TokenError → HTTPResponse
  | .notFound => .unauthorized "invalid token"
  | .revoked => .unauthorized "token revoked"
  | .expired => .unauthorized "token expired"
  | .usageLimitReached => .unauthorized "token usage limit reached"
  | .ipNotAllowed => .unauthorized "token ip not allowed"
  | .other => .internalError "token validation failed"

/-- The meta document storage.EnrollAgent builds: the os/arch/agent_version
object when any of the three is non-empty, otherwise the empty object. -/
def enrollMeta (req : EnrollAgentRequest) : MetaVal :=
  if req.os != "" || req.arch != "" || req.agentVersion != "" then
    MetaVal.osArchVer req.os req.arch req.agentVersion
  else MetaVal.emptyObj

/-- storage.EnrollAgent: build the models.Agent record (status online,
lastSeenAt and enrolledAt now, tags from the bootstrap token) and run the
agent upsert; returns the updated database and the constructed record. -/
def storageEnrollAgent (db : DB) (orgId : String) (req : EnrollAgentRequest)
    (bootstrapTokenId remoteIP : String) (tokenTags : List String)
    (newRowId : String) (nowMs : Int) : DB × GoAgent :=
  let agent : GoAgent :=
    { id := newRowId
      agentId := req.agentId
      orgId := orgId
      name := ""
      hostname := req.hostname
      status := "online"
      tags := some tokenTags
      hardwareFingerprint := req.hardwareFingerprint
      enrolledVia := some bootstrapTokenId
      enrolledAt := some nowMs
      enrolledIP := some remoteIP
      lastSeenAt := some nowMs
      meta := some (enrollMeta req) }
  (storageCreateAgent db agent, agent)

/-- The default JWT validity: 365 days, in milliseconds. -/
def defaultJWTExpiryMs : Int := 365 * 24 * 60 * 60 * 1000

/-- The tail of EnrollAgent after the pinned-key lookup: upsert the agent,
bump token usage (bootstrap_tokens is outside the modelled tables), issue
the JWT, and insert the credential row, pinned exactly when no pinned key
existed. -/
def enrollInsertPhase (db : DB) (req : EnrollAgentRequest) (bt : BootstrapTokenInfo)
    (remoteIP existingKey newAgentRowId : String) (nowMs : Int) : DB × HTTPResponse :=
  let res := storageEnrollAgent db bt.orgId req bt.id remoteIP bt.tags newAgentRowId nowMs
  let cred : CredentialRow :=
    { agentId := req.agentId
      publicKey := req.publicKey
      isPinned := existingKey == ""
      fingerprintAtRegistration := nullIfEmpty req.hardwareFingerprint
      registeredFromIP := nullIfEmpty remoteIP
      registeredHostname := nullIfEmpty req.hostname
      jwtExpiresAt := nowMs + defaultJWTExpiryMs
      revoked := false }
  match insertCredentialRow res.1 cred with
  | none => (res.1, .internalError "failed to store credentials")
  | some db2 => (db2, .createdEnroll res.2.agentId res.2.orgId (res.2.tags.getD []))

/-- EnrollAgent (natsauth EnrollmentHandler), translated check for check:
trim fields, resolve the bootstrap token from header or query, reject on
missing fields / bad length / bad signature / stale timestamp / token
error / foreign organization / pinned-key mismatch, then upsert and insert
the credential. -/
def enrollAgent (db : DB) (req0 : EnrollAgentRequest) (headerToken queryToken : String)
    (nowMs : Int) (remoteIP : String) (sigValid : Bool)
    (tokenCheck : Except TokenError BootstrapTokenInfo)
    (newAgentRowId : String) : DB × HTTPResponse :=
  let req := trimEnrollRequest req0
  let bootstrapToken := resolveBootstrapToken headerToken queryToken
  if bootstrapToken = "" then (db, .unauthorized "missing bootstrap token")
  else if missingEnrollField req then (db, .badRequest "missing required fields")
  else if req.agentId.length != 12 then (db, .badRequest "invalid agent_id")
  else if !sigValid then (db, .unauthorized "invalid signature")
  else if !(isTimestampFresh nowMs req.timestamp fiveMinutesMs) then
    (db, .unauthorized "timestamp expired")
  else
    match tokenCheck with
    | .error e => (db, tokenErrorResponse e)
    | .ok bt =>
        if agentOrgConflict db req.agentId bt.orgId then
          (db, .forbidden "agent belongs to different organization")
        else
          let existingKey := getPinnedPublicKey db req.agentId
          if existingKey != "" && existingKey != req.publicKey then
            (db, .forbidden "agent_id already registered with different key")
          else enrollInsertPhase db req bt remoteIP existingKey newAgentRowId nowMs

/-- RotateCredentials (natsauth Handler): inside one transaction revoke all
non-revoked credentials of the agent and insert a fresh non-pinned one; if
the insert fails the whole transaction rolls back. -/
def rotateCredentials (db : DB) (agentId newPublicKey : String) (nowMs : Int) :
    DB × HTTPResponse :=
  if agentId = "" then (db, .badRequest "Missing agent id")
  else
    let db1 := revokeAllActiveCredentials db agentId
    let cred : CredentialRow :=
      { agentId := agentId
        publicKey := newPublicKey
        isPinned := false
        fingerprintAtRegistration := none
        registeredFromIP := none
        registeredHostname := none
        jwtExpiresAt := nowMs + defaultJWTExpiryMs
        revoked := false }
    match insertCredentialRow db1 cred with
    | none => (db, .internalError "Failed to store credentials")
    | some db2 => (db2, .okRotated)

/-- CreateAgent (natsauth Handler): inside one transaction insert a fresh
agents row (plain INSERT: a uniqueness conflict on agent_id aborts) with
status pending and only name/hostname set, then insert a pinned credential;
failure of either insert rolls the transaction back.  The generated
agent id, record UUID and public key are inputs. -/
def createAgentHandler (db : DB) (name hostname agentId recordId publicKey : String)
    (nowMs : Int) : DB × HTTPResponse :=
  if (getAgentByAgentID db agentId).isSome then (db, .internalError "Failed to create agent")
  else
    let row : AgentRow :=
      { id := recordId
        agentId := agentId
        orgId := none
        name := trimSpace name
        hostname := trimSpace hostname
        status := "pending"
        lastSeenAt := none
        tags := []
        hardwareFingerprint := none
        enrolledVia := none
        enrolledAt := none
        enrolledIP := none
        meta := none }
    let cred : CredentialRow :=
      { agentId := agentId
        publicKey := publicKey
        isPinned := true
        fingerprintAtRegistration := none
        registeredFromIP := none
        registeredHostname := none
        jwtExpiresAt := nowMs + defaultJWTExpiryMs
        revoked := false }
    match insertCredentialRow { db with agents := db.agents ++ [row] } cred with
    | none => (db, .internalError "Failed to store credentials")
    | some db2 => (db2, .createdAgent agentId)

/-! ### Stream consumers (package ingest): per-message processing

A message is represented by its msgpack decode result (none on a decode
failure; msgpack itself is an external library).  The disposition is the
first acknowledgement action taken for the message: Term inside
processMessage, or the loop's NakWithDelay(5 s) on a returned error, or the
loop's Ack on nil (the Ack the loop issues after a Term is suppressed by
the client because the message is already acknowledged). -/

/-- First acknowledgement action taken for one message. -/
inductive MsgDisposition where
  | ack
  | nakWithDelay
  | term
  deriving Repr, DecidableEq

/-- models.Event, with the details map as an association list. -/
structure Event where
  v : Int
  ts : Int
  agentId : String
  alertType : String
  message : String
  details : List (String × DetailVal)
  truncated : Bool
  deriving Repr, DecidableEq

/-- Map lookup in the details document. -/
def lookupDetail (details : List (String × DetailVal)) (key : String) : Option DetailVal :=
  (details.find? (fun kv => kv.1 == key)).map (fun kv => kv.2)

/-- Event.GetSource: first non-empty string value among the keys source,
container_name, service, path; otherwise "unknown". -/
def Event.getSource (e : Event) : String :=
  let pick := fun (k : String) =>
    match lookupDetail e.details k with
    | some (DetailVal.str s) => if s != "" then some s else none
    | _ => none
  match ["source", "container_name", "service", "path"].findSome? pick with
  | some s => s
  | none => "unknown"

/-- Event.GetLogs: the logs entry when it is a string, otherwise "". -/
def Event.getLogs (e : Event) : String :=
  match lookupDetail e.details "logs" with
  | some (DetailVal.str s) => s
  | _ => ""

/-- Raw error composition of the events consumer: message, then when logs
are non-empty a blank line and the logs; NUL characters stripped. -/
def eventRawError (e : Event) : String :=
  let logs := e.getLogs
  let rawError := if logs != "" then e.message ++ "\n\n" ++ logs else e.message
  rawError.replace "\x00" ""

/-- EventsConsumer.processMessage: terminate undecodable messages; create
the agent row (hostname unknown, status online) when the agent id is new;
insert the incident; ack on success, nak with 5 s delay on a storage
error.  The generated UUID for a new agent row is an input. -/
def processEventsMessage (db : DB) (decoded : Option Event) (newAgentRowId : String) :
    DB × MsgDisposition :=
  match decoded with
  | none => (db, .term)
  | some event =>
      let db1 :=
        match getAgentByAgentID db event.agentId with
        | some _ => db
        | none =>
            storageCreateAgent db
              { id := newAgentRowId
                agentId := event.agentId
                orgId := ""
                name := ""
                hostname := "unknown"
                status := "online"
                tags := none
                hardwareFingerprint := ""
                enrolledVia := none
                enrolledAt := none
                enrolledIP := none
                lastSeenAt := none
                meta := none }
      match createIncident db1 event.agentId event.alertType event.getSource
          (eventRawError event) event.details "" "new" with
      | some db2 => (db2, .ack)
      | none => (db1, .nakWithDelay)

/-- The decoded models.Inventory value, represented by the canonical JSON
serialization json.Marshal produces for it (its individual fields are
inspected by no verified path; the serialization is deterministic). -/
structure Inventory where
  canonicalJson : String
  deriving Repr, DecidableEq

/-- strings.Split on a single-character separator, on the character list
(structural recursion, so concrete instances evaluate).  Splitting the
empty string yields one empty field, as in Go. -/
def splitChars (sep : Char) : List Char → List (List Char)
  | [] => [[]]
  | c :: cs =>
      let rest := splitChars sep cs
      if c = sep then [] :: rest
      else
        match rest with
        | r :: rs => (c :: r) :: rs
        | [] => [[c]]

/-- strings.Split(subject, "."). -/
def splitOnDot (s : String) : List String :=
  (splitChars (Char.ofNat 46) s.data).map String.mk

/-- agentIDFromSubject: the middle token of an ops.{agentId}.inventory
subject, or an error. -/
def agentIDFromSubject (subject : String) : Option String :=
  match splitOnDot subject with
  | [a, b, c] => if a == "ops" && c == "inventory" then some b else none
  | _ => none

/-- InventoryConsumer.processMessage: terminate undecodable messages;
serialize, extract the agent id from the subject (error means nak),
hash the payload with sha256-hex (passed as a function, being external
crypto) and insert-if-new; ack on success. -/
def processInventoryMessage (sha256Hex : String → String) (db : DB)
    (subject : String) (decoded : Option Inventory) : DB × MsgDisposition :=
  match decoded with
  | none => (db, .term)
  | some inv =>
      let payload := inv.canonicalJson
      match agentIDFromSubject subject with
      | none => (db, .nakWithDelay)
      | some agentId =>
          let hash := sha256Hex payload
          (insertInventorySnapshot db agentId hash payload, .ack)

/-! ### Conflict service and event hub (package natsauth) -/

/-- The server-side state the conflict service touches: the database and
the sequence of (orgId, conflict) events handed to the hub queue. -/
structure SystemState where
  db : DB
  published : List (String × ConflictRow)
  deriving Repr, DecidableEq

/-- Open connection rows of an agent, in connected_at order. -/
def openConnections (db : DB) (agentId : String) : List ConnectionRow :=
  db.connections.filter (fun c => c.agentId == agentId && !c.disconnected)

/-- The SELECT of GetActiveConnection (ORDER BY connected_at DESC LIMIT 1):
the most recently connected open row, i.e. the last one in insertion
order. -/
def latestOpenConnection (db : DB) (agentId : String) : Option ConnectionRow :=
  (openConnections db agentId).getLast?

/-- GetActiveConnection as its caller observes it.  The Scan writes the
nullable columns nats_client_id, hostname and disconnect_reason into plain
Go strings, and database/sql refuses to convert NULL into string, so any
row with one of those NULL comes back as an error, which OnAgentConnect
only logs, leaving existing nil. -/
def getActiveConnection (db : DB) (agentId : String) : Option ConnectionRow :=
  match latestOpenConnection db agentId with
  | none => none
  | some r =>
      if r.natsClientId.isSome && r.hostname.isSome && r.disconnectReason.isSome then some r
      else none

/-- storage.RecordAgentConnection: INSERT of an open connection row
(nats_client_id and hostname bound through nullIfEmpty); the FK on
agents(agent_id) must hold, a failure is only logged by the caller. -/
def recordAgentConnection (db : DB) (id agentId natsClientId remoteIP hostname : String) : DB :=
  if (getAgentByAgentID db agentId).isSome then
    { db with connections := db.connections ++
      [{ id := id, agentId := agentId, natsClientId := nullIfEmpty natsClientId,
         remoteIP := remoteIP, hostname := nullIfEmpty hostname,
         disconnected := false, disconnectReason := none }] }
  else db

/-- storage.RecordAgentConflict: INSERT of the conflict row (text fields
bound through nullIfEmpty); the FK on agents(agent_id) must hold, a
failure is only logged by the caller. -/
def recordAgentConflict (db : DB) (c : ConflictRow) : DB :=
  if (getAgentByAgentID db c.agentId).isSome then
    { db with conflicts := db.conflicts ++ [c] }
  else db

/-- ConflictService.OnAgentConnect: look up the active connection; when one
is visible with a different remote IP, record a pending conflict row and,
when the agent exists with a non-empty organization, publish the conflict
to the hub under that organization; always insert the new connection row
afterwards.  Generated UUIDs are inputs. -/
def onAgentConnect (st : SystemState) (agentId remoteIP hostname natsClientID : String)
    (newConflictId newConnectionId : String) : SystemState :=
  let existing := getActiveConnection st.db agentId
  let st1 :=
    match existing with
    | some ex =>
        if ex.remoteIP != remoteIP then
          let conflict : ConflictRow :=
            { id := newConflictId
              agentId := agentId
              existingIP := nullIfEmpty ex.remoteIP
              newIP := nullIfEmpty remoteIP
              existingHostname := nullIfEmpty (ex.hostname.getD "")
              newHostname := nullIfEmpty hostname
              resolution := "pending" }
          let db1 := recordAgentConflict st.db conflict
          let st2 : SystemState := { st with db := db1 }
          match getAgentByAgentID db1 agentId with
          | some ag =>
              if (ag.orgId.getD "") != "" then
                { st2 with published := st2.published ++ [((ag.orgId.getD ""), conflict)] }
              else st2
          | none => st2
        else st
    | none => st
  { st1 with db := recordAgentConnection st1.db newConnectionId agentId natsClientID remoteIP hostname }

/-! ### Supporting lemmas about the agents upsert -/

theorem upsertAgentRows_of_absent (l : List AgentRow) (p : AgentRow)
    (h : l.find? (fun r => r.agentId == p.agentId) = none) :
    upsertAgentRows l p = l ++ [p] := by
  induction l with
  | nil => rfl
  | cons r rs ih =>
      cases hr : (r.agentId == p.agentId) with
      | true =>
          have hpos : (fun x => x.agentId == p.agentId) r = true := hr
          rw [List.find?_cons_of_pos rs hpos] at h
          exact absurd h (by simp)
      | false =>
          have hneg : ¬ (fun x => x.agentId == p.agentId) r = true := by simp [hr]
          rw [List.find?_cons_of_neg rs hneg] at h
          simp only [upsertAgentRows, hr]
          rw [if_neg (by simp), ih h]
          rfl

theorem find?_upsertAgentRows_self (l : List AgentRow) (p old : AgentRow)
    (h : l.find? (fun r => r.agentId == p.agentId) = some old) :
    (upsertAgentRows l p).find? (fun r => r.agentId == p.agentId)
      = some (mergeAgentRow p old) := by
  induction l with
  | nil => exact absurd h (by simp)
  | cons r rs ih =>
      cases hr : (r.agentId == p.agentId) with
      | false =>
          have hneg : ¬ (fun x => x.agentId == p.agentId) r = true := by simp [hr]
          rw [List.find?_cons_of_neg rs hneg] at h
          have hrec := ih h
          simp only [upsertAgentRows, hr]
          rw [if_neg (by simp), List.find?_cons_of_neg (upsertAgentRows rs p) hneg]
          exact hrec
      | true =>
          have hpos : (fun x => x.agentId == p.agentId) r = true := hr
          rw [List.find?_cons_of_pos rs hpos] at h
          injection h with h
          subst h
          simp only [upsertAgentRows, hr]
          rw [if_pos trivial]
          exact List.find?_cons_of_pos rs
            (show (fun x => x.agentId == p.agentId) (mergeAgentRow p r) = true from hr)

theorem find?_isSome_upsertAgentRows (l : List AgentRow) (p : AgentRow) (a : String) :
    ((upsertAgentRows l p).find? (fun r => r.agentId == a)).isSome
      = ((l.find? (fun r => r.agentId == a)).isSome || (p.agentId == a)) := by
  induction l with
  | nil =>
      cases hp : (p.agentId == a) with
      | true =>
          have hpos : (fun x => x.agentId == a) p = true := hp
          rw [show upsertAgentRows [] p = [p] from rfl,
            List.find?_cons_of_pos ([] : List AgentRow) hpos]
          simp [hp]
      | false =>
          have hneg : ¬ (fun x => x.agentId == a) p = true := by simp [hp]
          rw [show upsertAgentRows [] p = [p] from rfl,
            List.find?_cons_of_neg ([] : List AgentRow) hneg]
          simp [hp]
  | cons r rs ih =>
      cases hr : (r.agentId == p.agentId) with
      | false =>
          cases ha : (r.agentId == a) with
          | true =>
              have hpos : (fun x => x.agentId == a) r = true := ha
              simp only [upsertAgentRows, hr]
              rw [if_neg (by simp), List.find?_cons_of_pos (upsertAgentRows rs p) hpos,
                List.find?_cons_of_pos rs hpos]
              simp
          | false =>
              have hneg : ¬ (fun x => x.agentId == a) r = true := by simp [ha]
              simp only [upsertAgentRows, hr]
              rw [if_neg (by simp), List.find?_cons_of_neg (upsertAgentRows rs p) hneg,
                List.find?_cons_of_neg rs hneg]
              exact ih
      | true =>
          have hrp : r.agentId = p.agentId := eq_of_beq hr
          cases ha : (r.agentId == a) with
          | true =>
              have hposm : (fun x => x.agentId == a) (mergeAgentRow p r) = true := ha
              have hpos : (fun x => x.agentId == a) r = true := ha
              simp only [upsertAgentRows, hr]
              rw [if_pos trivial, List.find?_cons_of_pos rs hposm,
                List.find?_cons_of_pos rs hpos]
              simp
          | false =>
              have hpa : (p.agentId == a) = false := by rw [← hrp]; exact ha
              have hnegm : ¬ (fun x => x.agentId == a) (mergeAgentRow p r) = true := by
                show ¬ (r.agentId == a) = true
                simp [ha]
              have hneg : ¬ (fun x => x.agentId == a) r = true := by simp [ha]
              simp only [upsertAgentRows, hr]
              rw [if_pos trivial, List.find?_cons_of_neg rs hnegm,
                List.find?_cons_of_neg rs hneg, hpa]
              simp

/-! ### C4: poison messages -/

/-- C4: a message whose msgpack payload fails to decode is terminated, not
nak'd, and has no storage side effect: the events consumer creates no
incident and the inventory consumer inserts no snapshot (the database is
returned untouched by both). -/
theorem poison_message_terminated (db : DB) (newAgentRowId : String)
    (sha256Hex : String → String) (subject : String) :
    processEventsMessage db none newAgentRowId = (db, MsgDisposition.term)
    ∧ processInventoryMessage sha256Hex db subject none = (db, MsgDisposition.term) :=
  ⟨rfl, rfl⟩

/-! ### C10: events from never-enrolled agents -/

/-- C10: a successfully decoded event whose agent_id has no agent row makes
the events consumer first insert an org-less agent row with hostname
unknown and status online (no name, no tags, no enrollment data, empty
meta) and then insert the incident for that agent id; the message is
acked. -/
theorem events_consumer_creates_unknown_agent (db : DB) (e : Event) (newId : String)
    (habs : getAgentByAgentID db e.agentId = none) :
    processEventsMessage db (some e) newId =
      ({ db with
          agents := db.agents ++
            [{ id := newId, agentId := e.agentId, orgId := none, name := "",
               hostname := "unknown", status := "online", lastSeenAt := none, tags := [],
               hardwareFingerprint := none, enrolledVia := none, enrolledAt := none,
               enrolledIP := none, meta := some MetaVal.emptyObj }],
          incidents := db.incidents ++
            [{ id := db.incidents.length, agentId := e.agentId, type := e.alertType,
               source := e.getSource, rawError := eventRawError e, context := e.details,
               aiAnalysis := "", status := "new" }] }, MsgDisposition.ack) := by
  have hfind : db.agents.find? (fun r => r.agentId == e.agentId) = none := habs
  have happend := upsertAgentRows_of_absent db.agents
    (proposedAgentRow (createAgentParams
      { id := newId, agentId := e.agentId, orgId := "", name := "", hostname := "unknown",
        status := "online", tags := none, hardwareFingerprint := "", enrolledVia := none,
        enrolledAt := none, enrolledIP := none, lastSeenAt := none, meta := none })) hfind
  have hself : (fun r => r.agentId == e.agentId)
      (proposedAgentRow (createAgentParams
        { id := newId, agentId := e.agentId, orgId := "", name := "", hostname := "unknown",
          status := "online", tags := none, hardwareFingerprint := "", enrolledVia := none,
          enrolledAt := none, enrolledIP := none, lastSeenAt := none, meta := none })) = true := by
    show (e.agentId == e.agentId) = true
    simp
  have hsingle := @List.find?_cons_of_pos AgentRow (fun r => r.agentId == e.agentId)
    (proposedAgentRow (createAgentParams
      { id := newId, agentId := e.agentId, orgId := "", name := "", hostname := "unknown",
        status := "online", tags := none, hardwareFingerprint := "", enrolledVia := none,
        enrolledAt := none, enrolledIP := none, lastSeenAt := none, meta := none }))
    ([] : List AgentRow) hself
  simp only [processEventsMessage, habs, storageCreateAgent, happend, createIncident,
    getAgentByAgentID, List.find?_append, hfind, Option.none_or, hsingle,
    Option.isSome_some]
  rw [if_pos trivial]
  rfl

/-! ### C9: the asymmetric upsert merge -/

/-- C9 counterexample: on an agent_id conflict an incoming nil Tags slice
does NOT preserve the stored tags — the VALUES clause already coalesces
the tags parameter to the empty array, so EXCLUDED.tags is never NULL and
the stored tags become the empty array. -/
theorem upsert_nil_tags_erase_counterexample :
    (getAgentByAgentID
      (storageCreateAgent
        { emptyDB with agents :=
            [{ id := "row-1", agentId := "abc123456789", orgId := some "org-1",
               name := "srv", hostname := "h1", status := "online", lastSeenAt := none,
               tags := ["prod"], hardwareFingerprint := none, enrolledVia := none,
               enrolledAt := none, enrolledIP := none, meta := some MetaVal.emptyObj }] }
        { id := "row-2", agentId := "abc123456789", orgId := "", name := "",
          hostname := "h1", status := "online", tags := none, hardwareFingerprint := "",
          enrolledVia := none, enrolledAt := none, enrolledIP := none, lastSeenAt := none,
          meta := none })
      "abc123456789").map AgentRow.tags = some []
    ∧ (["prod"] : List String) ≠ [] := by
  constructor
  · rfl
  · decide

/-- C9 (amended): the upsert merge keeps existing org_id, name,
hardware_fingerprint, enrolled_via, enrolled_at and enrolled_ip whenever
the incoming value is null or empty, and always overwrites hostname,
status, last_seen_at and meta — but tags are also always overwritten:
a nil incoming Tags slice stores the empty array (EXCLUDED.tags is the
already-coalesced VALUES expression, never NULL). -/
theorem upsert_merge_characterization (db : DB) (a : GoAgent) (old m : AgentRow)
    (hold : getAgentByAgentID db a.agentId = some old)
    (hm : m = mergeAgentRow (proposedAgentRow (createAgentParams a)) old) :
    getAgentByAgentID (storageCreateAgent db a) a.agentId = some m
    ∧ (a.orgId = "" → m.orgId = old.orgId)
    ∧ (a.orgId ≠ "" → m.orgId = some a.orgId)
    ∧ (a.name = "" → m.name = old.name)
    ∧ (a.name ≠ "" → m.name = a.name)
    ∧ (a.hardwareFingerprint = "" → m.hardwareFingerprint = old.hardwareFingerprint)
    ∧ (a.hardwareFingerprint ≠ "" → m.hardwareFingerprint = some a.hardwareFingerprint)
    ∧ (a.enrolledVia = none → m.enrolledVia = old.enrolledVia)
    ∧ (a.enrolledAt = none → m.enrolledAt = old.enrolledAt)
    ∧ (a.enrolledIP = none → m.enrolledIP = old.enrolledIP)
    ∧ m.hostname = a.hostname
    ∧ m.status = a.status
    ∧ m.lastSeenAt = a.lastSeenAt
    ∧ m.meta = some (a.meta.getD MetaVal.emptyObj)
    ∧ m.tags = a.tags.getD [] := by
  subst hm
  refine ⟨find?_upsertAgentRows_self db.agents (proposedAgentRow (createAgentParams a)) old hold,
    fun h => ?_, fun h => ?_, fun h => ?_, fun h => ?_, fun h => ?_, fun h => ?_,
    fun h => ?_, fun h => ?_, fun h => ?_, ?_, ?_, ?_, ?_, ?_⟩
  · simp [mergeAgentRow, proposedAgentRow, createAgentParams, nullIfEmpty, coalesce, h]
  · simp [mergeAgentRow, proposedAgentRow, createAgentParams, nullIfEmpty, coalesce, h]
  · simp [mergeAgentRow, proposedAgentRow, createAgentParams, h]
  · simp [mergeAgentRow, proposedAgentRow, createAgentParams, h]
  · simp [mergeAgentRow, proposedAgentRow, createAgentParams, nullIfEmpty,
      nullIfEmptyText, coalesce, h]
  · simp [mergeAgentRow, proposedAgentRow, createAgentParams, nullIfEmpty,
      nullIfEmptyText, coalesce, h]
  · simp [mergeAgentRow, proposedAgentRow, createAgentParams, coalesce, h]
  · simp [mergeAgentRow, proposedAgentRow, createAgentParams, coalesce, h]
  · simp [mergeAgentRow, proposedAgentRow, createAgentParams, coalesce, h]
  · rfl
  · rfl
  · rfl
  · cases hmeta : a.meta <;>
      simp [mergeAgentRow, proposedAgentRow, createAgentParams, hmeta]
  · rfl

/-! ### C6: inventory snapshot idempotence -/

/-- Number of snapshot rows for one (agentId, hash) pair. -/
def snapshotCount (db : DB) (agentId hash : String) : Nat :=
  (db.inventory.filter (fun r => r.agentId == agentId && r.hash == hash)).length

/-- C6: inventory insertion is idempotent on (agentId, hash).  Processing
two decoded inventory messages whose canonical JSON payloads hash alike,
starting from a state with no row for the pair, acks both messages, leaves
exactly one snapshot row for the pair, and the second insertion changes
nothing. -/
theorem inventory_snapshot_idempotent (sha256Hex : String → String) (db : DB)
    (subject agentId : String) (inv1 inv2 : Inventory)
    (hsubj : agentIDFromSubject subject = some agentId)
    (hhash : sha256Hex inv1.canonicalJson = sha256Hex inv2.canonicalJson)
    (hfresh : snapshotCount db agentId (sha256Hex inv1.canonicalJson) = 0) :
    (processInventoryMessage sha256Hex db subject (some inv1)).2 = MsgDisposition.ack
    ∧ (processInventoryMessage sha256Hex
        (processInventoryMessage sha256Hex db subject (some inv1)).1
        subject (some inv2)).2 = MsgDisposition.ack
    ∧ snapshotCount
        (processInventoryMessage sha256Hex
          (processInventoryMessage sha256Hex db subject (some inv1)).1
          subject (some inv2)).1
        agentId (sha256Hex inv1.canonicalJson) = 1
    ∧ (processInventoryMessage sha256Hex
        (processInventoryMessage sha256Hex db subject (some inv1)).1
        subject (some inv2)).1
      = (processInventoryMessage sha256Hex db subject (some inv1)).1 := by
  have hnone : db.inventory.any
      (fun r => r.agentId == agentId && r.hash == sha256Hex inv1.canonicalJson) = false := by
    rw [List.any_eq_false]
    intro x hx
    have : db.inventory.filter
        (fun r => r.agentId == agentId && r.hash == sha256Hex inv1.canonicalJson) = [] :=
      List.length_eq_zero.mp hfresh
    have := List.filter_eq_nil_iff.mp this x hx
    exact this
  have hfirst : processInventoryMessage sha256Hex db subject (some inv1)
      = ({ db with inventory := db.inventory ++
            [{ agentId := agentId, hash := sha256Hex inv1.canonicalJson,
               payload := inv1.canonicalJson }] }, MsgDisposition.ack) := by
    simp only [processInventoryMessage, hsubj, insertInventorySnapshot, hnone]
    rfl
  have hmem : ({ db with inventory := db.inventory ++
        [{ agentId := agentId, hash := sha256Hex inv1.canonicalJson,
           payload := inv1.canonicalJson }] } : DB).inventory.any
      (fun r => r.agentId == agentId && r.hash == sha256Hex inv2.canonicalJson) = true := by
    rw [List.any_eq_true]
    refine ⟨{ agentId := agentId, hash := sha256Hex inv1.canonicalJson,
              payload := inv1.canonicalJson }, by simp, ?_⟩
    simp [hhash]
  have hsecond : processInventoryMessage sha256Hex
      ({ db with inventory := db.inventory ++
          [{ agentId := agentId, hash := sha256Hex inv1.canonicalJson,
             payload := inv1.canonicalJson }] }) subject (some inv2)
      = ({ db with inventory := db.inventory ++
            [{ agentId := agentId, hash := sha256Hex inv1.canonicalJson,
               payload := inv1.canonicalJson }] }, MsgDisposition.ack) := by
    simp only [processInventoryMessage, hsubj, insertInventorySnapshot, hmem]
    rfl
  rw [hfirst]
  simp only [hsecond]
  refine ⟨by trivial, by trivial, ?_, by trivial⟩
  simp only [snapshotCount, List.filter_append, List.length_append]
  rw [List.length_eq_zero.mp hfresh]
  simp

/-! ### C8: conflict detection on agent connect -/

/-- Agent row of the C8 scenario: abc123456789 in organization org-1. -/
def demoAgentRow : AgentRow :=
  { id := "row-1", agentId := "abc123456789", orgId := some "org-1", name := "",
    hostname := "host-a", status := "online", lastSeenAt := none, tags := [],
    hardwareFingerprint := none, enrolledVia := none, enrolledAt := none,
    enrolledIP := none, meta := none }

/-- Open connection of the C8 scenario, from 10.0.0.1; like every open
connection row its disconnect_reason is NULL. -/
def demoOpenConnection : ConnectionRow :=
  { id := "conn-1", agentId := "abc123456789", natsClientId := some "nc-1",
    remoteIP := "10.0.0.1", hostname := some "host-a", disconnected := false,
    disconnectReason := none }

/-- State of the C8 scenario before the second connect. -/
def demoConflictState : SystemState :=
  { db := { emptyDB with agents := [demoAgentRow], connections := [demoOpenConnection] },
    published := [] }

/-- The connection row the second connect (from 10.0.0.2) inserts. -/
def demoSecondConnection : ConnectionRow :=
  { id := "conn-2", agentId := "abc123456789", natsClientId := some "nc-2",
    remoteIP := "10.0.0.2", hostname := some "host-b", disconnected := false,
    disconnectReason := none }

/-- C8, evaluated at the failing input: agent abc123456789 is connected
from 10.0.0.1 (one open connection row, whose disconnect_reason — like
that of every open connection — is NULL) and connects again from
10.0.0.2.  The claim expects one pending conflict row plus one hub
publication; the code records neither, because GetActiveConnection scans
the NULL disconnect_reason into a plain Go string, errs, and is read as no
active connection — although the open row from a different IP is there.
Only the new connection row is inserted. -/
theorem onAgentConnect_conflict_never_recorded :
    onAgentConnect demoConflictState "abc123456789" "10.0.0.2" "host-b" "nc-2"
        "conflict-1" "conn-2"
      = { db :=
            { emptyDB with
                agents := [demoAgentRow],
                connections := [demoOpenConnection, demoSecondConnection] },
          published := [] }
    ∧ (latestOpenConnection demoConflictState.db "abc123456789" = some demoOpenConnection
        ∧ demoOpenConnection.remoteIP ≠ "10.0.0.2")
    ∧ getActiveConnection demoConflictState.db "abc123456789" = none := by
  refine ⟨by decide, ⟨by decide, by decide⟩, by decide⟩

/-! ### C2: the pinned-credential invariant -/

/-- The credential-writing operations of the claim — enrollment, credential
rotation, initial agent creation — with the oracle inputs each handler
takes. -/
inductive CredentialOp where
  | enroll (req : EnrollAgentRequest) (headerToken queryToken : String) (nowMs : Int)
      (remoteIP : String) (sigValid : Bool)
      (tokenCheck : Except TokenError BootstrapTokenInfo) (newAgentRowId : String)
  | rotate (agentId newPublicKey : String) (nowMs : Int)
  | create (name hostname agentId recordId publicKey : String) (nowMs : Int)

/-- Keys handed to rotate/create come from GenerateUserKeyPair and are
never empty (NKey user public keys start with U); enrollment checks its own
key for emptiness, so it is unconstrained here. -/
def CredentialOp.generatedKeyNonempty : CredentialOp → Bool
  | .enroll _ _ _ _ _ _ _ _ => true
  | .rotate _ k _ => !(k == "")
  | .create _ _ _ _ k _ => !(k == "")

/-- State effect of one credential-writing operation. -/
def applyCredentialOp (db : DB) : CredentialOp → DB
  | .enroll req h q now ip sv tc nid => (enrollAgent db req h q now ip sv tc nid).1
  | .rotate a k now => (rotateCredentials db a k now).1
  | .create n h a rid k now => (createAgentHandler db n h a rid k now).1

/-- Inductive invariant: per agent at most one pinned active credential,
every pinned active credential carries a non-empty key, and every
credential references an existing agent row. -/
def credInvariant (db : DB) : Prop :=
  (∀ a, pinnedActiveCount db a ≤ 1)
  ∧ (∀ c ∈ db.credentials, c.isPinned = true → c.revoked = false → c.publicKey ≠ "")
  ∧ (∀ c ∈ db.credentials, (getAgentByAgentID db c.agentId).isSome = true)

theorem length_filter_append_single {α : Type} (p : α → Bool) (l : List α) (c : α) :
    ((l ++ [c]).filter p).length
      = (l.filter p).length + (if p c = true then 1 else 0) := by
  rw [List.filter_append]
  cases hc : p c <;> simp [List.filter_cons, hc]

theorem length_filter_map_of_pred_eq {α : Type} (f : α → α) (p : α → Bool) (l : List α)
    (h : ∀ c, p (f c) = p c) : ((l.map f).filter p).length = (l.filter p).length := by
  induction l with
  | nil => rfl
  | cons c cs ih =>
      rw [List.map_cons, List.filter_cons, List.filter_cons, h c]
      cases hp : p c <;> simp [hp, ih]

theorem isPinnedActiveFor_revokeCred_other (a b : String) (hne : a ≠ b)
    (c : CredentialRow) :
    isPinnedActiveFor b (revokeCred a c) = isPinnedActiveFor b c := by
  cases hag : (c.agentId == a) with
  | false => simp [revokeCred, hag]
  | true =>
      have hb : (c.agentId == b) = false := by
        rw [eq_of_beq hag]
        exact beq_eq_false_iff_ne.mpr hne
      cases hrev : c.revoked <;>
        simp [revokeCred, isPinnedActiveFor, hag, hrev, hb]

theorem filter_pinnedActive_revoke_self (l : List CredentialRow) (a : String) :
    (l.map (revokeCred a)).filter (isPinnedActiveFor a) = [] := by
  rw [List.filter_eq_nil_iff]
  intro x hx
  rw [List.mem_map] at hx
  obtain ⟨c, _, rfl⟩ := hx
  cases hag : (c.agentId == a) <;> cases hrev : c.revoked <;>
    simp [revokeCred, isPinnedActiveFor, hag, hrev]

theorem revokeCred_agentId (a : String) (c : CredentialRow) :
    (revokeCred a c).agentId = c.agentId := by
  cases h : (c.agentId == a && !c.revoked) <;> simp [revokeCred, h]

theorem pinned_filter_nil_of_empty_key (db : DB) (a : String)
    (hinv2 : ∀ c ∈ db.credentials, c.isPinned = true → c.revoked = false → c.publicKey ≠ "")
    (h : getPinnedPublicKey db a = "") :
    db.credentials.filter (isPinnedActiveFor a) = [] := by
  rw [List.filter_eq_nil_iff]
  intro c hc hpred
  cases hf : db.credentials.find? (isPinnedActiveFor a) with
  | none => exact (List.find?_eq_none.mp hf c hc) hpred
  | some c0 =>
      have hkey : getPinnedPublicKey db a = c0.publicKey := by
        simp [getPinnedPublicKey, hf]
      rw [hkey] at h
      have hmem := List.mem_of_find?_eq_some hf
      have hp0 := List.find?_some hf
      simp only [isPinnedActiveFor, Bool.and_eq_true] at hp0
      exact hinv2 c0 hmem hp0.1.2 (by simpa using hp0.2) h

theorem creds_filter_nil_of_no_agent (db : DB) (a : String)
    (hinv3 : ∀ c ∈ db.credentials, (getAgentByAgentID db c.agentId).isSome = true)
    (h : (getAgentByAgentID db a).isSome = false) :
    db.credentials.filter (isPinnedActiveFor a) = [] := by
  rw [List.filter_eq_nil_iff]
  intro c hc hpred
  simp only [isPinnedActiveFor, Bool.and_eq_true] at hpred
  have : c.agentId = a := eq_of_beq hpred.1.1
  rw [← this] at h
  rw [hinv3 c hc] at h
  exact absurd h (by simp)

theorem isSome_find?_append_left (l : List AgentRow) (r : AgentRow) (a : String)
    (h : (l.find? (fun x => x.agentId == a)).isSome = true) :
    ((l ++ [r]).find? (fun x => x.agentId == a)).isSome = true := by
  rcases Option.isSome_iff_exists.mp h with ⟨x, hx⟩
  rw [List.find?_append, hx]
  rfl

theorem credInvariant_insert (db db2 : DB) (c : CredentialRow)
    (hinv : credInvariant db)
    (hkey : c.isPinned = true → c.publicKey ≠ "")
    (hpinned : c.isPinned = true → db.credentials.filter (isPinnedActiveFor c.agentId) = [])
    (hins : insertCredentialRow db c = some db2) :
    credInvariant db2 := by
  obtain ⟨h1, h2, h3⟩ := hinv
  unfold insertCredentialRow at hins
  split_ifs at hins with hfk hdup
  injection hins with hins
  subst hins
  refine ⟨?_, ?_, ?_⟩
  · intro a
    show ((db.credentials ++ [c]).filter (isPinnedActiveFor a)).length ≤ 1
    rw [length_filter_append_single]
    cases hp : isPinnedActiveFor a c with
    | false => simpa using h1 a
    | true =>
        simp only [isPinnedActiveFor, Bool.and_eq_true] at hp
        have ha : c.agentId = a := eq_of_beq hp.1.1
        have hnil := hpinned hp.1.2
        rw [ha] at hnil
        show (db.credentials.filter (isPinnedActiveFor a)).length + _ ≤ 1
        rw [hnil]
        simp
  · intro x hx
    rcases List.mem_append.mp hx with hx | hx
    · exact h2 x hx
    · rw [List.mem_singleton.mp hx]
      exact fun hpin _ => hkey hpin
  · intro x hx
    rcases List.mem_append.mp hx with hx | hx
    · exact h3 x hx
    · rw [List.mem_singleton.mp hx]
      show (getAgentByAgentID db c.agentId).isSome = true
      cases hcase : (getAgentByAgentID db c.agentId).isSome with
      | true => rfl
      | false => exact absurd hcase hfk

theorem credInvariant_revokeAll (db : DB) (a : String) (hinv : credInvariant db) :
    credInvariant (revokeAllActiveCredentials db a)
    ∧ (revokeAllActiveCredentials db a).credentials.filter (isPinnedActiveFor a) = [] := by
  obtain ⟨h1, h2, h3⟩ := hinv
  have hself := filter_pinnedActive_revoke_self db.credentials a
  refine ⟨⟨?_, ?_, ?_⟩, hself⟩
  · intro b
    by_cases hab : a = b
    · subst hab
      show ((db.credentials.map (revokeCred a)).filter (isPinnedActiveFor a)).length ≤ 1
      rw [hself]
      simp
    · show ((db.credentials.map (revokeCred a)).filter (isPinnedActiveFor b)).length ≤ 1
      rw [length_filter_map_of_pred_eq (revokeCred a) (isPinnedActiveFor b) db.credentials
        (isPinnedActiveFor_revokeCred_other a b hab)]
      exact h1 b
  · intro x hx
    simp only [revokeAllActiveCredentials] at hx
    rw [List.mem_map] at hx
    obtain ⟨c, hc, rfl⟩ := hx
    cases hcond : (c.agentId == a && !c.revoked) with
    | false =>
        have : revokeCred a c = c := by simp [revokeCred, hcond]
        rw [this]
        exact h2 c hc
    | true =>
        have : revokeCred a c = { c with revoked := true } := by simp [revokeCred, hcond]
        rw [this]
        intro _ hfalse
        exact absurd hfalse (by simp)
  · intro x hx
    simp only [revokeAllActiveCredentials] at hx
    rw [List.mem_map] at hx
    obtain ⟨c, hc, rfl⟩ := hx
    show (getAgentByAgentID (revokeAllActiveCredentials db a) (revokeCred a c).agentId).isSome = true
    rw [revokeCred_agentId]
    exact h3 c hc

theorem credInvariant_storageCreateAgent (db : DB) (a : GoAgent)
    (hinv : credInvariant db) : credInvariant (storageCreateAgent db a) := by
  obtain ⟨h1, h2, h3⟩ := hinv
  refine ⟨h1, h2, ?_⟩
  intro c hc
  have hold := h3 c hc
  show ((upsertAgentRows db.agents (proposedAgentRow (createAgentParams a))).find?
    (fun r => r.agentId == c.agentId)).isSome = true
  rw [find?_isSome_upsertAgentRows]
  have : (db.agents.find? (fun r => r.agentId == c.agentId)).isSome = true := hold
  rw [this]
  simp

theorem credInvariant_appendAgent (db : DB) (r : AgentRow) (hinv : credInvariant db) :
    credInvariant { db with agents := db.agents ++ [r] } := by
  obtain ⟨p1, p2, p3⟩ := hinv
  exact ⟨p1, p2, fun c hc => isSome_find?_append_left db.agents r c.agentId (p3 c hc)⟩

theorem credInvariant_enrollInsertPhase (db : DB) (req : EnrollAgentRequest)
    (bt : BootstrapTokenInfo) (remoteIP existingKey newId : String) (nowMs : Int)
    (hinv : credInvariant db)
    (hkeyne : req.publicKey ≠ "")
    (hex : existingKey = "" → db.credentials.filter (isPinnedActiveFor req.agentId) = []) :
    credInvariant (enrollInsertPhase db req bt remoteIP existingKey newId nowMs).1 := by
  have hinv1 : credInvariant (storageEnrollAgent db bt.orgId req bt.id remoteIP bt.tags newId nowMs).1 :=
    credInvariant_storageCreateAgent db _ hinv
  simp only [enrollInsertPhase]
  split
  · exact hinv1
  · next db2 heq =>
      exact credInvariant_insert _ db2 _ hinv1 (fun _ => hkeyne)
        (fun hpin => hex (eq_of_beq hpin)) heq

theorem credInvariant_enrollAgent (db : DB) (req0 : EnrollAgentRequest)
    (headerToken queryToken : String) (nowMs : Int) (remoteIP : String) (sigValid : Bool)
    (tokenCheck : Except TokenError BootstrapTokenInfo) (newId : String)
    (hinv : credInvariant db) :
    credInvariant (enrollAgent db req0 headerToken queryToken nowMs remoteIP sigValid
      tokenCheck newId).1 := by
  cases tokenCheck with
  | error e =>
      simp only [enrollAgent]
      split_ifs <;> exact hinv
  | ok bt =>
      simp only [enrollAgent]
      split_ifs with h1 h2 h3 h4 h5 h6 h7
      · exact hinv
      · exact hinv
      · exact hinv
      · exact hinv
      · exact hinv
      · exact hinv
      · exact hinv
      · apply credInvariant_enrollInsertPhase db _ bt remoteIP _ newId nowMs hinv
        · simp only [missingEnrollField, Bool.or_eq_true, beq_iff_eq] at h2
          push_neg at h2
          exact h2.1.1.1.1.1.2
        · intro hek
          exact pinned_filter_nil_of_empty_key db _ hinv.2.1 hek

theorem credInvariant_rotate (db : DB) (a k : String) (nowMs : Int)
    (hinv : credInvariant db) :
    credInvariant (rotateCredentials db a k nowMs).1 := by
  simp only [rotateCredentials]
  split_ifs with h1
  · exact hinv
  · split
    · exact hinv
    · next db2 heq =>
        have hrev := credInvariant_revokeAll db a hinv
        exact credInvariant_insert _ db2 _ hrev.1
          (fun hpin => absurd hpin (by simp)) (fun hpin => absurd hpin (by simp)) heq

theorem credInvariant_create (db : DB) (n h a rid k : String) (nowMs : Int)
    (hk : k ≠ "") (hinv : credInvariant db) :
    credInvariant (createAgentHandler db n h a rid k nowMs).1 := by
  simp only [createAgentHandler]
  split_ifs with h1
  · exact hinv
  · have habsent : (getAgentByAgentID db a).isSome = false := by
      cases hcase : (getAgentByAgentID db a).isSome with
      | false => rfl
      | true => exact absurd hcase h1
    split
    · exact hinv
    · next db2 heq =>
        have hinv1 := credInvariant_appendAgent db
          { id := rid, agentId := a, orgId := none, name := trimSpace n,
            hostname := trimSpace h, status := "pending", lastSeenAt := none, tags := [],
            hardwareFingerprint := none, enrolledVia := none, enrolledAt := none,
            enrolledIP := none, meta := none } hinv
        exact credInvariant_insert _ db2 _ hinv1 (fun _ => hk)
          (fun _ => creds_filter_nil_of_no_agent db a hinv.2.2 habsent) heq

theorem credInvariant_emptyDB : credInvariant emptyDB := by
  refine ⟨fun a => ?_, fun c hc => absurd hc (by simp [emptyDB]), fun c hc => absurd hc (by simp [emptyDB])⟩
  simp [pinnedActiveCount, emptyDB]

theorem credInvariant_applyOp (db : DB) (op : CredentialOp)
    (hop : op.generatedKeyNonempty = true) (hinv : credInvariant db) :
    credInvariant (applyCredentialOp db op) := by
  cases op with
  | enroll req h q now ip sv tc nid =>
      exact credInvariant_enrollAgent db req h q now ip sv tc nid hinv
  | rotate a k now => exact credInvariant_rotate db a k now hinv
  | create n h a rid k now =>
      simp only [CredentialOp.generatedKeyNonempty, Bool.not_eq_true', beq_eq_false_iff_ne] at hop
      exact credInvariant_create db n h a rid k now hop hinv

theorem credInvariant_foldl (ops : List CredentialOp) (db : DB)
    (hinv : credInvariant db)
    (hwf : ∀ op ∈ ops, op.generatedKeyNonempty = true) :
    credInvariant (ops.foldl applyCredentialOp db) := by
  induction ops generalizing db with
  | nil => exact hinv
  | cons op ops ih =>
      exact ih (applyCredentialOp db op)
        (credInvariant_applyOp db op (hwf op (by simp)) hinv)
        (fun o ho => hwf o (by simp [ho]))

/-- C2: starting from the empty database, after any sequence of
credential-writing operations — enrollment (pins only when no pinned key
existed), rotation (revokes all active credentials, inserts a non-pinned
one), initial agent creation (inserts a pinned credential for a fresh
agent id) — every agent has at most one pinned, non-revoked credential.
The only assumption is that the externally generated NKey public keys
handed to rotation and creation are non-empty. -/
theorem credential_pinned_invariant (ops : List CredentialOp)
    (hwf : ∀ op ∈ ops, op.generatedKeyNonempty = true) (a : String) :
    pinnedActiveCount (ops.foldl applyCredentialOp emptyDB) a ≤ 1 :=
  (credInvariant_foldl ops emptyDB credInvariant_emptyDB hwf).1 a

/-- Closed instance of C2: create an agent, then rotate its credentials;
the pinned active count of the agent stays at most one. -/
theorem credential_pinned_invariant_witness :
    pinnedActiveCount
      ([CredentialOp.create "srv" "host-1" "abc123456789" "rec-1" "UKEYAAA" 0,
        CredentialOp.rotate "abc123456789" "UKEYBBB" 5].foldl applyCredentialOp emptyDB)
      "abc123456789" ≤ 1 :=
  credential_pinned_invariant
    [CredentialOp.create "srv" "host-1" "abc123456789" "rec-1" "UKEYAAA" 0,
     CredentialOp.rotate "abc123456789" "UKEYBBB" 5] (by decide) "abc123456789"

/-! ### C3: pinned-key mismatch on enrollment -/

/-- C3: when an agent already has a pinned non-revoked credential with key
K1 and an otherwise valid enrollment request (token present, fields
present, 12-char agent id, valid signature, fresh timestamp, valid
bootstrap token, no cross-organization conflict) carries a different key,
the handler answers Forbidden and the database is unchanged: no credential
row is created and no agent field is touched. -/
theorem enroll_pinned_key_mismatch_forbidden
    (db : DB) (req0 : EnrollAgentRequest) (headerToken queryToken : String)
    (nowMs : Int) (remoteIP : String) (bt : BootstrapTokenInfo) (newId K1 : String)
    (htok : resolveBootstrapToken headerToken queryToken ≠ "")
    (hfields : missingEnrollField (trimEnrollRequest req0) = false)
    (hlen : (trimEnrollRequest req0).agentId.length = 12)
    (hfresh : isTimestampFresh nowMs (trimEnrollRequest req0).timestamp fiveMinutesMs = true)
    (horg : agentOrgConflict db (trimEnrollRequest req0).agentId bt.orgId = false)
    (hpinned : getPinnedPublicKey db (trimEnrollRequest req0).agentId = K1)
    (hK1 : K1 ≠ "")
    (hne : (trimEnrollRequest req0).publicKey ≠ K1) :
    enrollAgent db req0 headerToken queryToken nowMs remoteIP true (Except.ok bt) newId
      = (db, HTTPResponse.forbidden "agent_id already registered with different key") := by
  simp only [enrollAgent]
  rw [if_neg htok, if_neg (by simp [hfields]), if_neg (by simp [hlen]),
    if_neg (by simp), if_neg (by simp [hfresh]), if_neg (by simp [horg]), hpinned,
    if_pos (by rw [Bool.and_eq_true, bne_iff_ne, bne_iff_ne]; exact ⟨hK1, Ne.symm hne⟩)]

/-! ### C7: the freshness window at the handler -/

/-- C7: an enrollment request that passes the bootstrap-token, field,
length and signature checks is answered with 401 timestamp expired exactly
when the absolute distance between the server clock and the request
timestamp exceeds 5 minutes; the pure check accepts a timestamp exactly
5 minutes old and rejects one 5 minutes + 1 ms old. -/
theorem enrollment_timestamp_window
    (db : DB) (req0 : EnrollAgentRequest) (headerToken queryToken : String)
    (nowMs : Int) (remoteIP : String)
    (tokenCheck : Except TokenError BootstrapTokenInfo) (newId : String)
    (htok : resolveBootstrapToken headerToken queryToken ≠ "")
    (hfields : missingEnrollField (trimEnrollRequest req0) = false)
    (hlen : (trimEnrollRequest req0).agentId.length = 12) :
    ((enrollAgent db req0 headerToken queryToken nowMs remoteIP true tokenCheck newId).2
        = HTTPResponse.unauthorized "timestamp expired"
      ↔ fiveMinutesMs < |nowMs - (trimEnrollRequest req0).timestamp|)
    ∧ isTimestampFresh nowMs (nowMs - fiveMinutesMs) fiveMinutesMs = true
    ∧ isTimestampFresh nowMs (nowMs - (fiveMinutesMs + 1)) fiveMinutesMs = false := by
  refine ⟨?_, ?_, ?_⟩
  · cases hfr : isTimestampFresh nowMs (trimEnrollRequest req0).timestamp fiveMinutesMs with
    | false =>
        have hres : (enrollAgent db req0 headerToken queryToken nowMs remoteIP true
            tokenCheck newId).2 = HTTPResponse.unauthorized "timestamp expired" := by
          simp only [enrollAgent]
          rw [if_neg htok, if_neg (by simp [hfields]), if_neg (by simp [hlen]),
            if_neg (by simp), if_pos (by simp [hfr])]
        exact iff_of_true hres
          ((isTimestampFresh_false_iff nowMs (trimEnrollRequest req0).timestamp
            fiveMinutesMs).mp hfr)
    | true =>
        have hnot : ¬(fiveMinutesMs < |nowMs - (trimEnrollRequest req0).timestamp|) := by
          intro hlt
          have := (isTimestampFresh_false_iff nowMs (trimEnrollRequest req0).timestamp
            fiveMinutesMs).mpr hlt
          rw [this] at hfr
          exact Bool.noConfusion hfr
        refine iff_of_false ?_ hnot
        cases tokenCheck with
        | error e =>
            simp only [enrollAgent]
            rw [if_neg htok, if_neg (by simp [hfields]), if_neg (by simp [hlen]),
              if_neg (by simp), if_neg (by simp [hfr])]
            cases e <;> simp [tokenErrorResponse]
        | ok bt =>
            simp only [enrollAgent]
            rw [if_neg htok, if_neg (by simp [hfields]), if_neg (by simp [hlen]),
              if_neg (by simp), if_neg (by simp [hfr])]
            cases hOrg : agentOrgConflict db (trimEnrollRequest req0).agentId bt.orgId with
            | true =>
                rw [if_pos rfl]
                simp
            | false =>
                rw [if_neg (by simp)]
                cases hPin : (getPinnedPublicKey db (trimEnrollRequest req0).agentId != ""
                    && getPinnedPublicKey db (trimEnrollRequest req0).agentId
                      != (trimEnrollRequest req0).publicKey) with
                | true =>
                    rw [if_pos rfl]
                    simp
                | false =>
                    rw [if_neg (by simp)]
                    simp only [enrollInsertPhase]
                    split
                    · simp
                    · simp
  · simp only [isTimestampFresh, fiveMinutesMs, Bool.and_eq_true, decide_eq_true_eq]
    omega
  · simp only [isTimestampFresh, fiveMinutesMs]
    rw [Bool.and_eq_false_iff]
    left
    simp only [decide_eq_false_iff_not, not_le]
    omega

/-! ### Closed witnesses -/

/-- Database of the C3 scenario: agent abc123456789 in org-1 with a pinned
active credential UKEY1. -/
def c3DB : DB :=
  { emptyDB with
    agents :=
      [{ id := "row-1", agentId := "abc123456789", orgId := some "org-1",
         name := "", hostname := "h1", status := "online", lastSeenAt := none,
         tags := [], hardwareFingerprint := none, enrolledVia := none,
         enrolledAt := none, enrolledIP := none, meta := none }],
    credentials :=
      [{ agentId := "abc123456789", publicKey := "UKEY1", isPinned := true,
         fingerprintAtRegistration := none, registeredFromIP := none,
         registeredHostname := none, jwtExpiresAt := 0, revoked := false }] }

/-- Enrollment request of the C3 scenario, carrying the different key
UKEY2. -/
def c3Req : EnrollAgentRequest :=
  { agentId := "abc123456789", publicKey := "UKEY2", hostname := "h1",
    hardwareFingerprint := "fp", os := "", arch := "", agentVersion := "",
    nonce := "n1", timestamp := 100, signature := "sig" }

/-- Bootstrap token of the C3 scenario, for org-1. -/
def c3Token : BootstrapTokenInfo := { id := "bt-1", orgId := "org-1", tags := [] }

/-- Closed instance of C3 at the concrete scenario. -/
theorem enroll_pinned_key_mismatch_forbidden_witness :
    enrollAgent c3DB c3Req "tok" "" 100 "10.0.0.5" true (Except.ok c3Token) "row-2"
      = (c3DB, HTTPResponse.forbidden "agent_id already registered with different key") :=
  enroll_pinned_key_mismatch_forbidden c3DB c3Req "tok" "" 100 "10.0.0.5" c3Token
    "row-2" "UKEY1" (by decide) (by decide) (by decide) (by decide) (by decide)
    (by decide) (by decide) (by decide)

/-- Enrollment request of the C7 witness, stale by far more than 5
minutes. -/
def c7Req : EnrollAgentRequest :=
  { agentId := "abc123456789", publicKey := "UKEY1", hostname := "h",
    hardwareFingerprint := "fp", os := "", arch := "", agentVersion := "",
    nonce := "n", timestamp := 1, signature := "s" }

/-- Closed instance of C7: at server time 400 000 ms a request stamped
1 ms is answered 401 timestamp expired. -/
theorem enrollment_timestamp_window_witness :
    (enrollAgent emptyDB c7Req "tok" "" 400000 "10.0.0.5" true
        (Except.ok { id := "bt-1", orgId := "org-1", tags := [] }) "row-1").2
      = HTTPResponse.unauthorized "timestamp expired" :=
  (enrollment_timestamp_window emptyDB c7Req "tok" "" 400000 "10.0.0.5"
    (Except.ok { id := "bt-1", orgId := "org-1", tags := [] }) "row-1"
    (by decide) (by decide) (by decide)).1.mpr (by decide)

/-- Closed instance of C6: two inventory payloads with the same hash leave
exactly one snapshot row. -/
theorem inventory_snapshot_idempotent_witness :
    snapshotCount
      (processInventoryMessage (fun _ => "hash-1")
        (processInventoryMessage (fun _ => "hash-1") emptyDB "ops.abc123456789.inventory"
          (some { canonicalJson := "payload-a" })).1
        "ops.abc123456789.inventory" (some { canonicalJson := "payload-b" })).1
      "abc123456789" "hash-1" = 1 :=
  (inventory_snapshot_idempotent (fun _ => "hash-1") emptyDB "ops.abc123456789.inventory"
    "abc123456789" { canonicalJson := "payload-a" } { canonicalJson := "payload-b" }
    (by decide) rfl (by decide)).2.2.1

/-- Stored row of the C9 witness. -/
def c9Old : AgentRow :=
  { id := "row-1", agentId := "abc123456789", orgId := some "org-1", name := "srv",
    hostname := "h1", status := "online", lastSeenAt := none, tags := ["prod"],
    hardwareFingerprint := none, enrolledVia := none, enrolledAt := none,
    enrolledIP := none, meta := some MetaVal.emptyObj }

/-- Database of the C9 witness. -/
def c9DB : DB := { emptyDB with agents := [c9Old] }

/-- Incoming upsert of the C9 witness, with nil tags and empty fields. -/
def c9Incoming : GoAgent :=
  { id := "row-2", agentId := "abc123456789", orgId := "", name := "", hostname := "h2",
    status := "online", tags := none, hardwareFingerprint := "", enrolledVia := none,
    enrolledAt := none, enrolledIP := none, lastSeenAt := none, meta := none }

/-- Closed instance of the amended C9 at the concrete scenario. -/
theorem upsert_merge_characterization_witness :
    getAgentByAgentID (storageCreateAgent c9DB c9Incoming) c9Incoming.agentId
      = some (mergeAgentRow (proposedAgentRow (createAgentParams c9Incoming)) c9Old) :=
  (upsert_merge_characterization c9DB c9Incoming c9Old
    (mergeAgentRow (proposedAgentRow (createAgentParams c9Incoming)) c9Old)
    (by decide) rfl).1

/-- Event of the C10 witness, from a never-enrolled agent id. -/
def c10Event : Event :=
  { v := 3, ts := 0, agentId := "abc123456789", alertType := "alert",
    message := "boom", details := [], truncated := false }

/-- Closed instance of C10: the event is acked and one incident row is
created alongside the fresh agent row. -/
theorem events_consumer_creates_unknown_agent_witness :
    (processEventsMessage emptyDB (some c10Event) "row-1").2 = MsgDisposition.ack
    ∧ (processEventsMessage emptyDB (some c10Event) "row-1").1.incidents.length = 1 := by
  have h := events_consumer_creates_unknown_agent emptyDB c10Event "row-1" rfl
  rw [h]
  exact ⟨rfl, rfl⟩

end OpsPilot
